import Mathlib

/- Shallow embedding of the csv-to-sheets upload pipeline:
   src/app/utils.py  (CSV parser and validator),
   src/app/main.py   (streaming intake, capacity check, title derivation,
                      background task wrapper),
   src/app/sheets.py (batched upload engine with per-batch retry). -/

/-- A CSV row: an ordered list of string cells (src/app/utils.py). -/
abbrev Row : Type := List String

/-- Python `str.strip()`: remove leading and trailing whitespace characters. -/
def pyStrip (s : List Char) : List Char :=
  ((s.dropWhile Char.isWhitespace).reverse.dropWhile Char.isWhitespace).reverse

/-- Truthiness of `cell.strip()` in Python (src/app/utils.py lines 25 and 43):
the cell still has a character after stripping whitespace. -/
def cellNonBlank (cell : String) : Bool :=
  !(pyStrip cell.data).isEmpty

/-- Model of the Python stdlib `csv.reader` over decoded text, restricted to
quote-free input (the only form the claims exercise): records are separated by
newline, a trailing newline yields no extra record, an empty line yields an
empty record, and fields split on commas (src/app/utils.py line 24). -/
def csv_reader (content : List Char) : List Row :=
  let pieces := content.splitOn '\n'
  let lines := if pieces.getLast? = some [] then pieces.dropLast else pieces
  lines.map (fun line => if line.isEmpty then [] else (line.splitOn ',').map String.mk)

/-- src/app/utils.py `parse_csv` line 25: keep only the reader's rows that have
at least one non-blank cell.  The byte-decoding step (utf-8 with latin-1
fallback, lines 18-22) always yields some text, so the parser is modelled on
the decoded text. -/
def parse_csv (content : String) : List Row :=
  (csv_reader content.data).filter (fun row => row.any cellNonBlank)

/-- src/app/utils.py `validate_csv` lines 31-54.  The loop over non-header rows
(lines 48-52) has an empty body (`pass`) and is omitted. -/
def validate_csv : List Row → Bool × String
  | [] => (false, "The CSV file is empty.")
  | header :: rest =>
    if (header :: rest).length < 2 then
      (false, "The CSV file must have at least a header row and one data row.")
    else if !(header.any cellNonBlank) then
      (false, "The header row appears to be empty.")
    else
      (true, "")

/-- src/app/main.py line 22. -/
def MAX_FILE_SIZE_MB : Nat := 200

/-- src/app/main.py line 23. -/
def MAX_FILE_SIZE : Nat := MAX_FILE_SIZE_MB * 1024 * 1024

/-- src/app/main.py line 78 (the chunk size only shapes the incoming stream;
the intake logic below is chunk-size agnostic). -/
def CHUNK_SIZE : Nat := 1024 * 1024

/-- The HTTP 400 detail raised at src/app/main.py lines 90-96. -/
def payloadTooLargeDetail : String :=
  "File too large. Maximum size is " ++ toString MAX_FILE_SIZE_MB ++ "MB. " ++
    "Consider splitting your CSV into smaller files."

/-- The mutable state of the intake loop: the buffered chunks and the running
byte total (src/app/main.py lines 76-77). -/
structure IntakeState where
  chunks : List (List Nat)
  totalSize : Nat
deriving DecidableEq

/-- src/app/main.py lines 80-98: read chunks until end of stream; after each
chunk add its length to the running total; the moment the total exceeds
`MAX_FILE_SIZE`, clear the buffered chunks and fail; otherwise append the chunk
and continue.  Returns the final buffer state together with either the joined
bytes (line 100) or the size error. -/
def intakeLoop : List (List Nat) → IntakeState → IntakeState × Except String (List Nat)
  | [], st => (st, Except.ok st.chunks.flatten)
  | chunk :: rest, st =>
    if MAX_FILE_SIZE < st.totalSize + chunk.length then
      (⟨[], st.totalSize + chunk.length⟩, Except.error payloadTooLargeDetail)
    else
      intakeLoop rest ⟨st.chunks ++ [chunk], st.totalSize + chunk.length⟩

/-- The intake phase of `upload_csv` started on an empty buffer
(src/app/main.py lines 76-100), fed by the stream's chunk sequence. -/
def read_file_chunks (stream : List (List Nat)) : IntakeState × Except String (List Nat) :=
  intakeLoop stream ⟨[], 0⟩

/-- src/app/main.py line 26: the Google Sheets hard cell limit. -/
def CELL_LIMIT : Nat := 10000000

/-- Digit grouping of Python's `{:,}` format: walking the digits from the least
significant end, insert a comma after every third digit. -/
def commaGroup : List Char → List Char
  | d1 :: d2 :: d3 :: d4 :: rest => d1 :: d2 :: d3 :: ',' :: commaGroup (d4 :: rest)
  | l => l

/-- Python `f"{n:,}"` for a natural number. -/
def commaSep (n : Nat) : String :=
  String.mk (commaGroup (toString n).data.reverse).reverse

/-- src/app/main.py line 117: `max(len(row) for row in rows)`; the call site
runs after validation, so `rows` is non-empty and Python's `max` never sees an
empty sequence (for a non-empty list the fold below is that maximum). -/
def mainTotalCols (rows : List Row) : Nat :=
  (rows.map List.length).foldl Nat.max 0

/-- src/app/main.py lines 116-129: the pre-creation capacity check.  Returns
the HTTP 422 detail when `total_cells` exceeds the limit and `none` when the
document passes. -/
def capacityCheck (rows : List Row) : Option String :=
  let total_rows := rows.length
  let total_cols := mainTotalCols rows
  let total_cells := total_rows * total_cols
  if CELL_LIMIT < total_cells then
    some ("CSV too large for Google Sheets: " ++ commaSep total_rows ++ " rows x " ++
      toString total_cols ++ " cols = " ++ commaSep total_cells ++ " cells. " ++
      "Google Sheets limit is 10,000,000 cells.")
  else none

/-- Bounded recursion on the text length implementing Python
`str.replace(".csv", "")` (src/app/main.py line 134): scan left to right; at a
position starting a `.csv` occurrence drop those four characters and continue
after them, otherwise keep the character.  The fuel argument only makes the
recursion structural; `removeCsvOcc` supplies enough fuel for the whole text. -/
def removeCsvGo : Nat → List Char → List Char
  | fuel + 1, c :: rest =>
    if c = '.' ∧ rest.take 3 = ['c', 's', 'v'] then removeCsvGo fuel (rest.drop 3)
    else c :: removeCsvGo fuel rest
  | _, l => l

/-- Python `filename.replace(".csv", "")`: remove every occurrence of `.csv`. -/
def removeCsvOcc (l : List Char) : List Char :=
  removeCsvGo l.length l

/-- Whether the text contains an occurrence of `.csv`. -/
def containsCsv : List Char → Bool
  | [] => false
  | c :: rest => (decide (c = '.' ∧ rest.take 3 = ['c', 's', 'v'])) || containsCsv rest

/-- src/app/main.py line 134:
`sheet_title = file.filename.replace(".csv", "").strip() or "Uploaded CSV"`. -/
def sheet_title (filename : String) : String :=
  let stripped := pyStrip (removeCsvOcc filename.data)
  if stripped.isEmpty then "Uploaded CSV" else String.mk stripped

/-- Outcome of `upload_batch_with_retry` for one batch: whether it returned
normally, how many write attempts were executed, and the backoff waits (in
seconds) slept between attempts, in order (src/app/sheets.py lines 145-179). -/
structure RetryOutcome where
  success : Bool
  attempts : Nat
  waits : List Nat
deriving DecidableEq

/-- The retry loop of src/app/sheets.py lines 158-179, with the write outcome
abstracted as `attemptSucceeds` (indexed by the 0-based attempt number) and
`remaining` counting the loop iterations still allowed, so the call starts at
`retryGo f 0 max_retries`.  A failing non-final attempt sleeps
`2 ^ (attempt + 1)` seconds and retries; a failing final attempt raises
(`success := false`); exhausting the loop without an iteration returns
normally, as Python does. -/
def retryGo (attemptSucceeds : Nat → Bool) : Nat → Nat → RetryOutcome
  | attempt, 0 => ⟨true, attempt, []⟩
  | attempt, remaining + 1 =>
    if attemptSucceeds attempt then ⟨true, attempt + 1, []⟩
    else if remaining = 0 then ⟨false, attempt + 1, []⟩
    else
      let r := retryGo attemptSucceeds (attempt + 1) remaining
      ⟨r.success, r.attempts, 2 ^ (attempt + 1) :: r.waits⟩

/-- src/app/sheets.py `upload_batch_with_retry` (lines 145-179), called with
`max_retries` write attempts. -/
def upload_batch_with_retry (attemptSucceeds : Nat → Bool) (max_retries : Nat) :
    RetryOutcome :=
  retryGo attemptSucceeds 0 max_retries

/-- src/app/sheets.py line 197. -/
def BATCH_SIZE : Nat := 10000

/-- The elements of a Python `range` with a positive step, generated from
`start` in steps of `step`, `count` many. -/
def pyRangeGo (step : Nat) : Nat → Nat → List Nat
  | _, 0 => []
  | start, count + 1 => start :: pyRangeGo step (start + step) count

/-- Python `range(start, stop, step)` for a positive step: CPython materializes
`(stop - start + step - 1) // step` elements, the k-th being
`start + k * step`. -/
def pyRange (start stop step : Nat) : List Nat :=
  pyRangeGo step start ((stop - start + step - 1) / step)

/-- src/app/sheets.py line 217: the destination range descriptor of the batch
starting at 1-indexed sheet row `sheetRow`. -/
def range_name (sheetRow : Nat) : String :=
  "Sheet1!A" ++ toString sheetRow

/-- src/app/sheets.py lines 214-217: the loop header
`for start_index in range(0, total_rows, BATCH_SIZE)` with, per iteration, the
1-indexed destination row `start_index + 1` and the slice
`data[start_index : start_index + BATCH_SIZE]`. -/
def uploadBatchPlan (data : List Row) : List (Nat × List Row) :=
  (pyRange 0 data.length BATCH_SIZE).map
    (fun startIndex => (startIndex + 1, (data.drop startIndex).take BATCH_SIZE))

/-- src/app/sheets.py line 199: `max(len(row) for row in data)`, evaluated only
when `data` is non-empty (guarded by line 194). -/
def engineTotalCols (data : List Row) : Nat :=
  (data.map List.length).foldl Nat.max 0

/-- src/app/sheets.py line 203: the engine's local `CELL_LIMIT`. -/
def ENGINE_CELL_LIMIT : Nat := 10000000

/-- src/app/sheets.py line 204: the engine's defensive pre-flight test. -/
def engineCapacityExceeded (data : List Row) : Bool :=
  decide (ENGINE_CELL_LIMIT < data.length * engineTotalCols data)

/-- The `ValueError` message of src/app/sheets.py lines 205-208. -/
def engineCapacityMsg (total_rows total_cols total_cells : Nat) : String :=
  "Data too large for Google Sheets: " ++ toString total_rows ++ " rows x " ++
    toString total_cols ++ " cols = " ++ commaSep total_cells ++
    " cells, exceeds the 10,000,000 cell limit."

/-- src/app/sheets.py `upload_data_to_sheet` (lines 182-231) with the network
write outcomes abstracted as `attemptSucceeds sheetRow attempt`.  Empty data
returns at once (line 194-195); an over-limit document raises `ValueError`
(lines 204-208); otherwise every batch is attempted in ascending row order,
a batch whose retries are exhausted has its 1-indexed starting row appended to
`failed_batches` (lines 223-226), and the run returns the failed rows. -/
def upload_data_to_sheet (attemptSucceeds : Nat → Nat → Bool) (data : List Row) :
    Except String (List Nat) :=
  if data.isEmpty then Except.ok []
  else
    let total_rows := data.length
    let total_cols := engineTotalCols data
    let total_cells := total_rows * total_cols
    if engineCapacityExceeded data then
      Except.error (engineCapacityMsg total_rows total_cols total_cells)
    else
      Except.ok ((uploadBatchPlan data).filterMap
        (fun entry =>
          if (upload_batch_with_retry (attemptSucceeds entry.fst) 3).success then none
          else some entry.fst))

/-- src/app/main.py `background_upload` (lines 29-38): run
`get_google_services` (abstracted as `auth`) and the upload engine inside a
`try`/`except Exception` that only logs, so the task always returns normally;
the observable outcome is the engine's failed-batch rows, or nothing when an
exception was swallowed. -/
def background_upload (auth : Except String Unit) (attemptSucceeds : Nat → Nat → Bool)
    (data : List Row) : List Nat :=
  match auth with
  | Except.error _ => []
  | Except.ok _ =>
    match upload_data_to_sheet attemptSucceeds data with
    | Except.ok failed => failed
    | Except.error _ => []

/- ------------------------------------------------------------------ -/
/- Helper lemmas                                                      -/
/- ------------------------------------------------------------------ -/

theorem foldl_max_replicate (n a x : Nat) :
    List.foldl Nat.max a (List.replicate n x) = if n = 0 then a else Nat.max a x := by
  induction n generalizing a with
  | zero => simp
  | succ n ih =>
    rw [List.replicate_succ, List.foldl_cons, ih]
    rcases Nat.eq_zero_or_pos n with h | h
    · simp [h]
    · have : n ≠ 0 := Nat.pos_iff_ne_zero.mp h
      simp [this, Nat.max_assoc]

theorem intake_fail (stream : List (List Nat)) : ∀ st : IntakeState,
    st.totalSize ≤ MAX_FILE_SIZE →
    MAX_FILE_SIZE < st.totalSize + (stream.map List.length).sum →
    (intakeLoop stream st).1.chunks = [] ∧
    (intakeLoop stream st).2 = Except.error payloadTooLargeDetail := by
  induction stream with
  | nil =>
    intro st h1 h2
    simp only [List.map_nil, List.sum_nil, Nat.add_zero] at h2
    exact absurd h2 (Nat.not_lt.mpr h1)
  | cons chunk rest ih =>
    intro st h1 h2
    simp only [intakeLoop]
    by_cases hc : MAX_FILE_SIZE < st.totalSize + chunk.length
    · rw [if_pos hc]
      exact ⟨rfl, rfl⟩
    · rw [if_neg hc]
      apply ih
      · exact Nat.not_lt.mp hc
      · show MAX_FILE_SIZE < st.totalSize + chunk.length + (rest.map List.length).sum
        simp only [List.map_cons, List.sum_cons] at h2
        omega

theorem intake_ok (stream : List (List Nat)) : ∀ st : IntakeState,
    st.totalSize + (stream.map List.length).sum ≤ MAX_FILE_SIZE →
    (intakeLoop stream st).2 = Except.ok ((st.chunks ++ stream).flatten) := by
  induction stream with
  | nil =>
    intro st _
    simp [intakeLoop]
  | cons chunk rest ih =>
    intro st h
    simp only [List.map_cons, List.sum_cons] at h
    simp only [intakeLoop]
    rw [if_neg (by omega)]
    rw [ih ⟨st.chunks ++ [chunk], st.totalSize + chunk.length⟩
      (by show st.totalSize + chunk.length + (rest.map List.length).sum ≤ MAX_FILE_SIZE
          omega)]
    simp

/- ------------------------------------------------------------------ -/
/- Claim theorems                                                     -/
/- ------------------------------------------------------------------ -/

/-- Claim C4: the intake loop rejects a stream the moment the running chunk
total exceeds `MAX_FILE_SIZE`, discarding every buffered chunk and failing
with the payload-too-large detail (whose text includes the configured limit),
while any stream whose total length is at most the limit is not rejected for
size and yields the concatenated bytes. -/
theorem intake_size_guard (stream : List (List Nat)) :
    (MAX_FILE_SIZE < (stream.map List.length).sum →
      (read_file_chunks stream).1.chunks = [] ∧
      (read_file_chunks stream).2 = Except.error payloadTooLargeDetail) ∧
    ((stream.map List.length).sum ≤ MAX_FILE_SIZE →
      (read_file_chunks stream).2 = Except.ok stream.flatten) ∧
    (∃ s t, payloadTooLargeDetail = s ++ toString MAX_FILE_SIZE_MB ++ t) := by
  refine ⟨fun h => ?_, fun h => ?_, ?_⟩
  · exact intake_fail stream ⟨[], 0⟩ (Nat.zero_le _) (by simpa using h)
  · have := intake_ok stream ⟨[], 0⟩ (by simpa using h)
    simpa using this
  · exact ⟨"File too large. Maximum size is ",
      "MB. Consider splitting your CSV into smaller files.", by decide⟩

/-- Witness for C4 at a concrete small stream. -/
theorem intake_size_guard_witness :
    (read_file_chunks [[0], [1, 2]]).2 = Except.ok [0, 1, 2] :=
  (intake_size_guard [[0], [1, 2]]).2.1 (by decide)

/-- Claim C5: the pre-creation capacity check passes exactly when
`rows * cols` (cols being the maximum cell count over all rows) is within the
10,000,000 limit, and on the 10,001 x 1000 document it fails reporting exactly
10,001 rows, 1000 cols and 10,001,000 cells. -/
theorem capacity_check_spec (rows : List Row) :
    (capacityCheck rows = none ↔ rows.length * mainTotalCols rows ≤ CELL_LIMIT) ∧
    capacityCheck (List.replicate 10001 (List.replicate 1000 "")) =
      some ("CSV too large for Google Sheets: 10,001 rows x 1000 cols = " ++
        "10,001,000 cells. Google Sheets limit is 10,000,000 cells.") := by
  constructor
  · simp only [capacityCheck]
    split
    · next h => simp [Nat.not_le.mpr h]
    · next h => simp [Nat.not_lt.mp h]
  · have hcols : mainTotalCols (List.replicate 10001 (List.replicate 1000 "")) = 1000 := by
      rw [mainTotalCols, List.map_replicate, List.length_replicate, foldl_max_replicate]
      rw [if_neg (by norm_num)]
      decide
    simp only [capacityCheck, hcols, List.length_replicate]
    rw [if_pos (by decide)]
    decide

/-- Claim C7: the validator checks its rules in order with the first failure
winning — no rows at all fails as empty, a single row fails as missing data
rows, a fully blank header fails as empty header — and every other document
passes with no reason, regardless of any row's cell count. -/
theorem validate_csv_rules :
    (validate_csv [] = (false, "The CSV file is empty.")) ∧
    (∀ r : Row, validate_csv [r] =
      (false, "The CSV file must have at least a header row and one data row.")) ∧
    (∀ (header : Row) (rest : List Row), rest ≠ [] →
      header.any cellNonBlank = false →
      validate_csv (header :: rest) = (false, "The header row appears to be empty.")) ∧
    (∀ (header : Row) (rest : List Row), rest ≠ [] →
      header.any cellNonBlank = true →
      validate_csv (header :: rest) = (true, "")) := by
  refine ⟨rfl, fun r => rfl, fun header rest hne hblank => ?_, fun header rest hne hdr => ?_⟩
  · cases rest with
    | nil => exact absurd rfl hne
    | cons r rs => simp [validate_csv, hblank]
  · cases rest with
    | nil => exact absurd rfl hne
    | cons r rs => simp [validate_csv, hdr]

/-- Witness for C7 on a concrete ragged document (data row wider than the
header) with a non-blank header. -/
theorem validate_csv_rules_witness :
    validate_csv [["h"], ["a", "b", "c"]] = (true, "") :=
  validate_csv_rules.2.2.2 ["h"] [["a", "b", "c"]] (by decide) (by decide)

/-- Claim C8: the parser's output never contains a row whose cells are all
blank; the output is a subsequence of the reader's rows and keeps every row
that has a non-blank cell, in order; and the header/blank/data document
parses to exactly its two non-blank rows. -/
theorem parse_csv_drops_blank_rows (content : String) :
    (∀ row ∈ parse_csv content, row.any cellNonBlank = true) ∧
    (parse_csv content).Sublist (csv_reader content.data) ∧
    (∀ row ∈ csv_reader content.data, row.any cellNonBlank = true →
      row ∈ parse_csv content) ∧
    parse_csv "Name,Age\n , \nAlice,30" = [["Name", "Age"], ["Alice", "30"]] := by
  refine ⟨fun row hr => ?_, List.filter_sublist _, fun row hr hnb => ?_, by decide⟩
  · simp only [parse_csv] at hr
    exact (List.mem_filter.mp hr).2
  · simp only [parse_csv]
    exact List.mem_filter.mpr ⟨hr, hnb⟩

/-- Witness for C8: a non-blank reader row of the example is kept. -/
theorem parse_csv_drops_blank_rows_witness :
    ["Alice", "30"] ∈ parse_csv "Name,Age\n , \nAlice,30" :=
  (parse_csv_drops_blank_rows "Name,Age\n , \nAlice,30").2.2.1
    ["Alice", "30"] (by decide) (by decide)

/-- Claim C10: every row the parser emits has a non-blank cell, so the
validator applied to parser output can only fail with the empty-document or
missing-data-rows reasons — its empty-header branch is unreachable. -/
theorem parser_header_never_blank (content : String) :
    (∀ row ∈ parse_csv content, row.any cellNonBlank = true) ∧
    (validate_csv (parse_csv content) = (false, "The CSV file is empty.") ∨
     validate_csv (parse_csv content) =
       (false, "The CSV file must have at least a header row and one data row.") ∨
     validate_csv (parse_csv content) = (true, "")) := by
  refine ⟨fun row hr => ?_, ?_⟩
  · simp only [parse_csv] at hr
    exact (List.mem_filter.mp hr).2
  rcases h : parse_csv content with _ | ⟨r0, _ | ⟨r1, rest⟩⟩
  · left; rfl
  · right; left; rfl
  · right; right
    have hr0 : r0 ∈ parse_csv content := by
      rw [h]; exact List.mem_cons_self _ _
    have hany : r0.any cellNonBlank = true := by
      simp only [parse_csv] at hr0
      exact (List.mem_filter.mp hr0).2
    simp [validate_csv, hany]

/-- Witness for C10 at a concrete two-line document. -/
theorem parser_header_never_blank_witness :
    validate_csv (parse_csv " , \nAlice,30") = (false, "The CSV file is empty.") ∨
    validate_csv (parse_csv " , \nAlice,30") =
      (false, "The CSV file must have at least a header row and one data row.") ∨
    validate_csv (parse_csv " , \nAlice,30") = (true, "") :=
  (parser_header_never_blank " , \nAlice,30").2

/-- The retry helper returns normally exactly when one of the three write
attempts succeeds. -/
theorem retry3_success (g : Nat → Bool) :
    (upload_batch_with_retry g 3).success = (g 0 || g 1 || g 2) := by
  cases h0 : g 0 <;> cases h1 : g 1 <;> cases h2 : g 2 <;>
    simp [upload_batch_with_retry, retryGo, h0, h1, h2]

/-- The retry loop never runs more write attempts than it has iterations
left. -/
theorem retryGo_attempts_le (g : Nat → Bool) : ∀ r a, (retryGo g a r).attempts ≤ a + r := by
  intro r
  induction r with
  | zero => intro a; simp [retryGo]
  | succ r ih =>
    intro a
    by_cases hg : g a
    · simp [retryGo, hg]
    · rcases Nat.eq_zero_or_pos r with hr | hr
      · subst hr; simp [retryGo, hg]
      · have hr' : r ≠ 0 := Nat.pos_iff_ne_zero.mp hr
        simp [retryGo, hg, hr']
        have := ih (a + 1)
        omega

/-- Claim C2: a batch write failing on attempts 1 and 2 and succeeding on
attempt 3 makes the retry helper return success after exactly 3 attempts with
backoff waits of 2 then 4 seconds; no run of the helper ever makes more than
3 write attempts, and the helper fails only when the final (3rd) attempt —
and with it every attempt — failed. -/
theorem retry_succeeds_on_third_attempt (f : Nat → Bool)
    (h0 : f 0 = false) (h1 : f 1 = false) (h2 : f 2 = true) :
    upload_batch_with_retry f 3 = ⟨true, 3, [2, 4]⟩ ∧
    (∀ g : Nat → Bool, (upload_batch_with_retry g 3).attempts ≤ 3) ∧
    (∀ g : Nat → Bool, (upload_batch_with_retry g 3).success = false ↔
      (g 0 = false ∧ g 1 = false ∧ g 2 = false)) := by
  refine ⟨?_, fun g => retryGo_attempts_le g 3 0, fun g => ?_⟩
  · simp [upload_batch_with_retry, retryGo, h0, h1, h2]
  · rw [retry3_success]
    cases hg0 : g 0 <;> cases hg1 : g 1 <;> cases hg2 : g 2 <;> simp

/-- Witness for C2 with the write outcome succeeding from the third attempt
on. -/
theorem retry_succeeds_on_third_attempt_witness :
    upload_batch_with_retry (fun n => decide (2 ≤ n)) 3 = ⟨true, 3, [2, 4]⟩ :=
  (retry_succeeds_on_third_attempt (fun n => decide (2 ≤ n)) rfl rfl rfl).1

/-- One step of the batching loop: Python `range(start, stop, 10000)` begins
with `start` and continues as `range(start + 10000, stop, 10000)` while
`start < stop`. -/
theorem pyRange_batch_cons (start stop : Nat) (hlt : start < stop) :
    pyRange start stop BATCH_SIZE = start :: pyRange (start + BATCH_SIZE) stop BATCH_SIZE := by
  have hc : (stop - start + BATCH_SIZE - 1) / BATCH_SIZE
      = (stop - (start + BATCH_SIZE) + BATCH_SIZE - 1) / BATCH_SIZE + 1 := by
    simp only [BATCH_SIZE]
    omega
  rw [pyRange, pyRange, hc, pyRangeGo]

/-- Python `range(start, stop, 10000)` is empty once `start` has reached
`stop`. -/
theorem pyRange_batch_nil (start stop : Nat) (hlt : ¬ start < stop) :
    pyRange start stop BATCH_SIZE = [] := by
  have hc : (stop - start + BATCH_SIZE - 1) / BATCH_SIZE = 0 := by
    simp only [BATCH_SIZE]
    omega
  rw [pyRange, hc, pyRangeGo]

theorem pyRangeGo_length (step : Nat) :
    ∀ count start, (pyRangeGo step start count).length = count := by
  intro count
  induction count with
  | zero => intro start; rfl
  | succ count ih => intro start; simp [pyRangeGo, ih]

theorem pyRangeGo_get (step : Nat) :
    ∀ count start k (h : k < (pyRangeGo step start count).length),
    (pyRangeGo step start count).get ⟨k, h⟩ = start + k * step := by
  intro count
  induction count with
  | zero => intro start k h; simp [pyRangeGo] at h
  | succ count ih =>
    intro start k h
    cases k with
    | zero => simp [pyRangeGo]
    | succ k =>
      have hk : k < (pyRangeGo step (start + step) count).length := by
        rw [pyRangeGo_length]
        rw [pyRangeGo_length] at h
        omega
      have hg := ih (start + step) k hk
      simp only [pyRangeGo, List.get_cons_succ]
      rw [hg]
      ring

/-- Concatenating the `BATCH_SIZE`-wide slices taken at the loop's start
indices recovers the rows from `start` on. -/
theorem pyRange_slices_flatten (data : List Row) :
    ∀ fuel start, data.length - start ≤ fuel →
    ((pyRange start data.length BATCH_SIZE).map
      (fun i => (data.drop i).take BATCH_SIZE)).flatten = data.drop start := by
  intro fuel
  induction fuel with
  | zero =>
    intro start h
    rw [pyRange_batch_nil start data.length (by omega)]
    simp only [List.map_nil, List.flatten_nil]
    exact (List.drop_eq_nil_of_le (by omega)).symm
  | succ fuel ih =>
    intro start h
    by_cases hlt : start < data.length
    · rw [pyRange_batch_cons start data.length hlt, List.map_cons, List.flatten_cons]
      rw [ih (start + BATCH_SIZE) (by simp only [BATCH_SIZE]; omega)]
      rw [show data.drop (start + BATCH_SIZE) = (data.drop start).drop BATCH_SIZE by
        rw [List.drop_drop]]
      exact List.take_append_drop _ _
    · rw [pyRange_batch_nil start data.length hlt]
      simp only [List.map_nil, List.flatten_nil]
      exact (List.drop_eq_nil_of_le (by omega)).symm

/-- The start indices the engine loops over, for a 25,001-row document. -/
theorem pyRange_25001 : pyRange 0 25001 BATCH_SIZE = [0, 10000, 20000] := by
  decide

/-- The batch plan's destination rows come from the loop indices by adding
one. -/
theorem uploadBatchPlan_fst (data : List Row) :
    (uploadBatchPlan data).map Prod.fst =
      (pyRange 0 data.length BATCH_SIZE).map (fun i => i + 1) := by
  rw [uploadBatchPlan, List.map_map]
  rfl

/-- Claim C1: the upload engine's batch plan partitions the rows into
contiguous batches in ascending row order (concatenating the planned batches
gives back the document), the k-th batch starts at 1-indexed destination row
`k * 10000 + 1` (its start index plus one), and a 25,001-row document yields
exactly the three batches starting at rows 1, 10001 and 20001 with the
corresponding range descriptors. -/
theorem upload_engine_batch_partition (data : List Row) :
    ((uploadBatchPlan data).map Prod.snd).flatten = data ∧
    (∀ k (h : k < (uploadBatchPlan data).length),
      ((uploadBatchPlan data).get ⟨k, h⟩).fst = k * BATCH_SIZE + 1) ∧
    (uploadBatchPlan (List.replicate 25001 ([] : Row))).map Prod.fst =
      [1, 10001, 20001] ∧
    (uploadBatchPlan (List.replicate 25001 ([] : Row))).map (fun e => range_name e.fst) =
      ["Sheet1!A1", "Sheet1!A10001", "Sheet1!A20001"] := by
  have hfst : ∀ data2 : List Row, (uploadBatchPlan data2).map Prod.fst =
      (pyRange 0 data2.length BATCH_SIZE).map (fun i => i + 1) := uploadBatchPlan_fst
  refine ⟨?_, ?_, ?_, ?_⟩
  · have hf := pyRange_slices_flatten data data.length 0 (by omega)
    simp only [List.drop_zero] at hf
    rw [uploadBatchPlan, List.map_map]
    exact hf
  · intro k h
    have hval : ∀ p : k < (pyRange 0 data.length BATCH_SIZE).length,
        (pyRange 0 data.length BATCH_SIZE).get ⟨k, p⟩ = k * BATCH_SIZE := by
      intro p
      have hg := pyRangeGo_get BATCH_SIZE ((data.length - 0 + BATCH_SIZE - 1) / BATCH_SIZE) 0 k
        (by rw [pyRange] at p; exact p)
      rw [Nat.zero_add] at hg
      exact hg
    show (((pyRange 0 data.length BATCH_SIZE).map
        (fun startIndex => (startIndex + 1, (data.drop startIndex).take BATCH_SIZE))).get
          ⟨k, h⟩).fst = k * BATCH_SIZE + 1
    rw [List.get_map, hval]
  · rw [hfst, List.length_replicate, pyRange_25001]
    decide
  · have hcomp : (uploadBatchPlan (List.replicate 25001 ([] : Row))).map
        (fun e => range_name e.fst)
        = ((uploadBatchPlan (List.replicate 25001 ([] : Row))).map Prod.fst).map range_name := by
      rw [List.map_map]
      rfl
    rw [hcomp, hfst, List.length_replicate, pyRange_25001]
    decide

/-- Witness for C1: the first planned batch of a one-row document starts at
destination row 1 (start index 0 plus one). -/
theorem upload_engine_batch_partition_witness :
    ((uploadBatchPlan [["a"]]).get ⟨0, by decide⟩).fst = 0 * BATCH_SIZE + 1 :=
  (upload_engine_batch_partition [["a"]]).2.1 0 (by decide)

/-- The pre-creation check passes exactly when the cell count is within the
limit. -/
theorem capacityCheck_none_iff (rows : List Row) :
    capacityCheck rows = none ↔ rows.length * mainTotalCols rows ≤ CELL_LIMIT := by
  simp only [capacityCheck]
  split
  · next h => simp [Nat.not_le.mpr h]
  · next h => simp [Nat.not_lt.mp h]

/-- Under the capacity limit, the engine runs every batch and returns the
starting rows of exactly those batches whose retries were exhausted. -/
theorem upload_data_ok (f : Nat → Nat → Bool) (data : List Row)
    (hcap : engineCapacityExceeded data = false) :
    upload_data_to_sheet f data = Except.ok ((uploadBatchPlan data).filterMap
      (fun entry => if (upload_batch_with_retry (f entry.fst) 3).success then none
        else some entry.fst)) := by
  rw [upload_data_to_sheet]
  by_cases he : data.isEmpty
  · rw [if_pos he]
    have h0 : data.length = 0 := by
      cases data with
      | nil => rfl
      | cons r rs => simp [List.isEmpty] at he
    have hplan : uploadBatchPlan data = [] := by
      rw [uploadBatchPlan, h0, pyRange_batch_nil 0 0 (by omega)]
      rfl
    rw [hplan]
    rfl
  · rw [if_neg he]
    simp [hcap]

/-- Claim C9: the orchestrator's pre-creation capacity check and the engine's
defensive pre-flight compute the same formula against the same limit — one
passes exactly when the other does — so a document passing the pre-creation
check always makes the engine run (it never raises its capacity error). -/
theorem capacity_checks_agree (rows : List Row) :
    (capacityCheck rows = none ↔ engineCapacityExceeded rows = false) ∧
    (capacityCheck rows = none →
      ∀ f : Nat → Nat → Bool, ∃ l, upload_data_to_sheet f rows = Except.ok l) := by
  have hiff : capacityCheck rows = none ↔ engineCapacityExceeded rows = false := by
    rw [capacityCheck_none_iff]
    simp only [engineCapacityExceeded, decide_eq_false_iff_not, Nat.not_lt]
    have hcols : mainTotalCols rows = engineTotalCols rows := rfl
    rw [hcols]
    exact Iff.rfl
  refine ⟨hiff, fun hnone f => ?_⟩
  exact ⟨_, upload_data_ok f rows (hiff.mp hnone)⟩

/-- Witness for C9 on a one-cell document. -/
theorem capacity_checks_agree_witness :
    ∃ l, upload_data_to_sheet (fun _ _ => true) [["a"]] = Except.ok l :=
  (capacity_checks_agree [["a"]]).2 (by decide) (fun _ _ => true)

/-- Claim C3: with the capacity check passed, a batch's 1-indexed starting row
appears in the background run's failed-offsets list exactly when that batch's
own three write attempts all failed — independently of every other batch, so
one failed batch never stops the rest — and the background task always returns
normally: it either surfaces the engine's failed list or swallows the
exception and returns nothing. -/
theorem engine_tolerates_batch_failures (f : Nat → Nat → Bool) (data : List Row)
    (hcap : engineCapacityExceeded data = false) :
    (∀ i, (i + 1) ∈ background_upload (Except.ok ()) f data ↔
      (i ∈ pyRange 0 data.length BATCH_SIZE ∧
        (upload_batch_with_retry (f (i + 1)) 3).success = false)) ∧
    (∀ g : Nat → Bool, (upload_batch_with_retry g 3).success = false ↔
      (g 0 = false ∧ g 1 = false ∧ g 2 = false)) ∧
    (∀ (auth : Except String Unit) (g : Nat → Nat → Bool) (d : List Row),
      background_upload auth g d = [] ∨
        upload_data_to_sheet g d = Except.ok (background_upload auth g d)) := by
  refine ⟨fun i => ?_, fun g => ?_, fun auth g d => ?_⟩
  · rw [show background_upload (Except.ok ()) f data
        = (match upload_data_to_sheet f data with
            | Except.ok failed => failed
            | Except.error _ => []) from rfl]
    rw [upload_data_ok f data hcap]
    simp only [List.mem_filterMap, uploadBatchPlan, List.mem_map]
    constructor
    · rintro ⟨e, ⟨j, hj, rfl⟩, he⟩
      by_cases hs : (upload_batch_with_retry (f (j + 1)) 3).success = true
      · rw [if_pos hs] at he
        cases he
      · rw [if_neg hs] at he
        have hji : j = i := by injection he with he2; omega
        subst hji
        exact ⟨hj, by simpa using hs⟩
    · rintro ⟨hi, hfail⟩
      refine ⟨(i + 1, (data.drop i).take BATCH_SIZE), ⟨i, hi, rfl⟩, ?_⟩
      simp [hfail]
  · rw [retry3_success]
    cases hg0 : g 0 <;> cases hg1 : g 1 <;> cases hg2 : g 2 <;> simp
  · cases auth with
    | error e => left; rfl
    | ok u =>
      cases hres : upload_data_to_sheet g d with
      | ok l =>
        right
        have hbg : background_upload (Except.ok u) g d = l := by
          simp [background_upload, hres]
        rw [hbg]
      | error e =>
        left
        simp [background_upload, hres]

/-- Witness for C3: with every write failing, the single batch of a two-row
document is recorded at starting row 1. -/
theorem engine_tolerates_batch_failures_witness :
    1 ∈ background_upload (Except.ok ()) (fun _ _ => false) [["a"], ["b"]] :=
  ((engine_tolerates_batch_failures (fun _ _ => false) [["a"], ["b"]]
    (by decide)).1 0).mpr ⟨by decide, by decide⟩

theorem removeCsvGo_nil (fuel : Nat) : removeCsvGo fuel [] = [] := by
  cases fuel <;> rfl

/-- When the part before the trailing `.csv` contains no `.csv` occurrence of
its own, the replace-all scan removes exactly the trailing suffix (no
occurrence can straddle the boundary, since no proper suffix of `.csv` is a
prefix of it). -/
theorem removeCsvGo_append (base : List Char) : ∀ fuel, base.length + 4 ≤ fuel →
    containsCsv base = false → removeCsvGo fuel (base ++ ['.', 'c', 's', 'v']) = base := by
  induction base with
  | nil =>
    intro fuel hf _
    cases fuel with
    | zero => omega
    | succ f =>
      show removeCsvGo (f + 1) ['.', 'c', 's', 'v'] = []
      rw [removeCsvGo, if_pos (by decide)]
      exact removeCsvGo_nil f
  | cons c rest ih =>
    intro fuel hf h
    rw [containsCsv, Bool.or_eq_false_iff] at h
    obtain ⟨h1, h2⟩ := h
    rw [decide_eq_false_iff_not] at h1
    cases fuel with
    | zero => simp at hf
    | succ f =>
      show removeCsvGo (f + 1) (c :: (rest ++ ['.', 'c', 's', 'v'])) = c :: rest
      rw [removeCsvGo, if_neg ?hcond]
      case hcond =>
        rintro ⟨hc, htake⟩
        rcases rest with _ | ⟨r1, _ | ⟨r2, _ | ⟨r3, t⟩⟩⟩
        · exact absurd htake (by decide)
        · have htake2 : [r1, '.', 'c'] = ['c', 's', 'v'] := htake
          simp only [List.cons.injEq, and_true] at htake2
          exact absurd htake2.2.1 (by decide)
        · have htake2 : [r1, r2, '.'] = ['c', 's', 'v'] := htake
          simp only [List.cons.injEq, and_true] at htake2
          exact absurd htake2.2.2 (by decide)
        · have htake2 : [r1, r2, r3] = ['c', 's', 'v'] := htake
          simp only [List.cons.injEq, and_true] at htake2
          obtain ⟨e1, e2, e3⟩ := htake2
          subst e1
          subst e2
          subst e3
          exact h1 ⟨hc, rfl⟩
      congr 1
      exact ih f (by simp only [List.length_cons] at hf; omega) h2

/-- Counterexample to C6 as stated: for the filename `a.csv.csv` the code
produces the title `a`, not the suffix-stripped `a.csv` — Python's
`replace(".csv", "")` removes every occurrence, not only the suffix. -/
theorem sheet_title_counterexample :
    sheet_title "a.csv.csv" = "a" ∧ sheet_title "a.csv.csv" ≠ "a.csv" := by
  constructor
  · decide
  · decide

/-- Claim C6 (amended): the title is the filename with every occurrence of
`.csv` removed (scanning left to right), then trimmed of surrounding
whitespace, with the fallback title when the result is empty; when `.csv`
occurs in the filename only as the trailing suffix, this coincides with the
spec's suffix-stripping: the title is the base name trimmed, with the
fallback when empty. -/
theorem sheet_title_suffix_only (base : List Char) (h : containsCsv base = false) :
    sheet_title (String.mk (base ++ ['.', 'c', 's', 'v'])) =
      (if (pyStrip base).isEmpty then "Uploaded CSV" else String.mk (pyStrip base)) := by
  have hro : removeCsvOcc (base ++ ['.', 'c', 's', 'v']) = base := by
    rw [removeCsvOcc, List.length_append]
    exact removeCsvGo_append base (base.length + 4) (by simp) h
  show (if (pyStrip (removeCsvOcc (base ++ ['.', 'c', 's', 'v']))).isEmpty then "Uploaded CSV"
    else String.mk (pyStrip (removeCsvOcc (base ++ ['.', 'c', 's', 'v'])))) =
      (if (pyStrip base).isEmpty then "Uploaded CSV" else String.mk (pyStrip base))
  rw [hro]

/-- Witness for C6 (amended) at the filename `data.csv`. -/
theorem sheet_title_suffix_only_witness :
    sheet_title (String.mk ("data".data ++ ['.', 'c', 's', 'v'])) =
      (if (pyStrip "data".data).isEmpty then "Uploaded CSV"
        else String.mk (pyStrip "data".data)) :=
  sheet_title_suffix_only "data".data (by decide)
